import Mathlib

/-!
Shallow embedding of the grants-management backend's application lifecycle
state machine and sign-off workflow (src/app/api/applications.py,
src/sync_review_fields.py), with theorems checking the specification's
claims against it.

Modelling conventions:
* Timestamps (ISO strings in the source) are modelled as `Nat`; the clock
  value `now` is passed explicitly where the source calls `datetime.utcnow()`.
* MongoDB documents are modelled at the parsed-field level (the pydantic
  `Application` model with `allow_population_by_field_name = True`).
* Python `None`-able fields are `Option`; Python truthiness tests on
  optional strings (`if not new_status`) treat both `None` and `""` as
  falsy, captured by `optTruthy`.
* `HTTPException` status codes are modelled by the `Err` type, carrying the
  `detail` string from the source.
* Each route handler becomes a pure function from (actor, application,
  request body, clock) to `Except Err Application`; the database
  round-trip (`update_one` + re-fetch) becomes returning the updated
  record.  The `modified_count == 0` guard never fires in the model since
  every modelled update stamps a fresh `updated_at`.
* The 404 path for an unresolvable application id is outside the model:
  handlers receive the already-fetched `Application`.
-/

namespace GMS

/-- Actor context produced by the authentication collaborator:
`current_user.email` and `current_user.role`. -/
structure Actor where
  email : String
  role : String
deriving Repr, DecidableEq

/-- One entry of the append-only review ledger (`reviewHistory` array
items created in `add_review_comment`). -/
structure ReviewEntry where
  reviewerName : String
  reviewerEmail : String
  comments : String
  submittedAt : Nat
  status : String
deriving Repr, DecidableEq

/-- One approver slot of the sign-off workflow, as created by
`initiate_application_signoff` and mutated by `submit_signoff_approval`.
`comments`, `approver_name` and `approved_at` are absent until a decision
is recorded. -/
structure Approval where
  role : String
  email : String
  name : String
  approverName : String
  token : String
  status : String
  comments : Option String
  approver_name : Option String
  approved_at : Option Nat
  created_at : Nat
deriving Repr, DecidableEq

/-- The embedded `signoff_workflow` sub-document. -/
structure SignoffWorkflow where
  status : String
  award_amount : Int
  approvals : List Approval
  initiated_by : String
  initiated_at : Nat
deriving Repr, DecidableEq

/-- The application record (fields of the pydantic `Application` model that
the modelled handlers read or write, plus representative carried fields). -/
structure Application where
  grant_id : String
  applicant_name : String
  email : String
  proposal_title : String
  status : String
  submission_date : Nat
  review_comments : String
  deadline : Option Nat
  final_decision : Option String
  is_editable : Option Bool
  revision_count : Option Nat
  original_submission_date : Option Nat
  reviewHistory : List ReviewEntry
  signoff_workflow : Option SignoffWorkflow
  updated_at : Nat
deriving Repr, DecidableEq

/-- Caller-visible errors: `HTTPException(status_code, detail)`. -/
inductive Err where
  | notFound (detail : String)
  | forbidden (detail : String)
  | badRequest (detail : String)
  | serverError (detail : String)
deriving Repr, DecidableEq

/-- Body of a `PUT /applications/{application_id}/status` request:
`status_data.get("status")` and `status_data.get("comments", "")`. -/
structure StatusRequest where
  status : Option String
  comments : String
deriving Repr, DecidableEq

/-- Python truthiness for an optional string: `None` and `""` are falsy. -/
def optTruthy (o : Option String) : Option String :=
  match o with
  | none => none
  | some s => if s = "" then none else some s

/-- The `valid_statuses` list of the first `update_application_status`
handler. -/
def valid_statuses : List String :=
  ["submitted", "under_review", "approved", "rejected",
   "withdrawn", "editable", "needs_revision", "awaiting_signoff",
   "signoff_complete", "contract_pending", "contract_received"]

/-- First-registered handler for `PUT /applications/{application_id}/status`
(src/app/api/applications.py lines 147-206): rejects every actor whose role
is not `Grants Manager`/`Admin`, validates the status literal against
`valid_statuses`, then sets status, comments/final_decision and the
editable flag.  It never touches `revision_count`, `submission_date` or
`original_submission_date`. -/
def updateApplicationStatusV1 (actor : Actor) (app : Application)
    (req : StatusRequest) (now : Nat) : Except Err Application :=
  if actor.role ∉ ["Grants Manager", "Admin"] then
    .error (.forbidden "Only grants managers can update application status")
  else
    match optTruthy req.status with
    | none => .error (.badRequest "Status is required")
    | some new_status =>
      if new_status ∉ valid_statuses then
        .error (.badRequest "Invalid status")
      else
        .ok { app with
          status := new_status
          updated_at := now
          review_comments :=
            if req.comments ≠ "" then req.comments else app.review_comments
          final_decision :=
            if req.comments ≠ "" then some new_status else app.final_decision
          is_editable :=
            some (decide (new_status ∈ ["needs_revision", "editable"])) }

/-- The shared tail of the second `update_application_status` handler after
its permission checks (lines 282-319): status/comments/editable update plus
the resubmission side effects. -/
def statusUpdateTail (app : Application) (req : StatusRequest) (now : Nat) :
    Except Err Application :=
  match optTruthy req.status with
  | none => .error (.badRequest "Status is required")
  | some new_status =>
    let base := { app with
      status := new_status
      updated_at := now
      review_comments :=
        if req.comments ≠ "" then req.comments else app.review_comments
      is_editable :=
        some (decide (new_status ∈ ["needs_revision", "editable"])) }
    if new_status = "submitted" ∧ app.status ∈ ["editable", "needs_revision"] then
      .ok { base with
        revision_count := some (app.revision_count.getD 0 + 1)
        original_submission_date :=
          some (app.original_submission_date.getD app.submission_date)
        submission_date := now }
    else
      .ok base

/-- Second-registered handler for `PUT /applications/{application_id}/status`
(src/app/api/applications.py lines 249-319): role/ownership policy with a
researcher resubmission path, no `valid_statuses` check, and the
resubmission side effects (`revision_count`, `original_submission_date`,
`submission_date`). -/
def updateApplicationStatusV2 (actor : Actor) (app : Application)
    (req : StatusRequest) (now : Nat) : Except Err Application :=
  if actor.role = "Researcher" then
    if app.email ≠ actor.email then
      .error (.forbidden "Access denied")
    else if req.status ≠ some "submitted" then
      .error (.forbidden "Researchers can only resubmit applications")
    else if app.status ∉ ["editable", "needs_revision", "rejected", "withdrawn"] then
      .error (.badRequest "Application cannot be resubmitted in current status")
    else
      statusUpdateTail app req now
  else if actor.role ∈ ["Grants Manager", "Admin"] then
    statusUpdateTail app req now
  else
    .error (.forbidden "Insufficient permissions")

/-- A route registration: HTTP method, path template, handler. -/
structure StatusRoute where
  method : String
  path : String
  handler : Actor → Application → StatusRequest → Nat → Except Err Application

/-- The two registrations of `PUT /applications/{application_id}/status`
on the applications router, in source order (decorators at lines 147 and
249 of src/app/api/applications.py). -/
def statusRouteRegistrations : List StatusRoute :=
  [⟨"PUT", "/applications/\x7bapplication_id\x7d/status", updateApplicationStatusV1⟩,
   ⟨"PUT", "/applications/\x7bapplication_id\x7d/status", updateApplicationStatusV2⟩]

/-- Starlette route dispatch: the first registered route whose method and
path match the request is invoked. -/
def dispatchStatus (method path : String) : Option StatusRoute :=
  statusRouteRegistrations.find? (fun r => r.method = method ∧ r.path = path)

/-- The handler effectively invoked by
`PUT /applications/{application_id}/status`. -/
def effectiveStatusHandler :
    Actor → Application → StatusRequest → Nat → Except Err Application :=
  match dispatchStatus "PUT" "/applications/\x7bapplication_id\x7d/status" with
  | some r => r.handler
  | none => fun _ _ _ _ => .error (.notFound "Not Found")

/-- `PUT /applications/{application_id}/withdraw` handler
(src/app/api/applications.py lines 208-247): ownership check, withdrawable
status set {submitted, under_review}, deadline check, then status →
`withdrawn`. -/
def withdrawApplication (actor : Actor) (app : Application) (now : Nat) :
    Except Err Application :=
  if app.email ≠ actor.email then
    .error (.forbidden "Can only withdraw your own applications")
  else if app.status ∉ ["submitted", "under_review"] then
    .error (.badRequest "Can only withdraw submitted or under review applications")
  else
    match app.deadline with
    | some d =>
      if now > d then
        .error (.badRequest "Cannot withdraw application after deadline")
      else
        .ok { app with status := "withdrawn", updated_at := now }
    | none =>
      .ok { app with status := "withdrawn", updated_at := now }

/-- Body of a `POST /applications/{application_id}/review` request
(`ReviewHistoryEntryCreate`). -/
structure ReviewCreate where
  reviewer_name : String
  reviewer_email : String
  comments : String
deriving Repr, DecidableEq

/-- `POST /applications/{application_id}/review` handler
(src/app/api/applications.py lines 387-428): appends a ledger entry and,
when the `new_status` query parameter is truthy, `$set`s the status
directly.  There is no role or ownership check; the actor context is
unused beyond authentication. -/
def addReviewComment (_actor : Actor) (app : Application) (rd : ReviewCreate)
    (new_status : Option String) (now : Nat) : Except Err Application :=
  let entry : ReviewEntry :=
    { reviewerName := rd.reviewer_name
      reviewerEmail := rd.reviewer_email
      comments := rd.comments
      submittedAt := now
      status := (optTruthy new_status).getD app.status }
  let app1 := { app with reviewHistory := app.reviewHistory ++ [entry] }
  match optTruthy new_status with
  | some s => .ok { app1 with status := s }
  | none => .ok app1

/-- One approver given to `initiate_application_signoff`:
`approver["role"]`, `approver["email"]`, `approver.get("name", "")`. -/
structure ApproverSpec where
  role : String
  email : String
  name : String
deriving Repr, DecidableEq

/-- Body of a `POST /applications/{application_id}/signoff/initiate`
request: `signoff_data.get("approvers", [])` and
`signoff_data.get("award_amount", 0)`. -/
structure SignoffData where
  approvers : List ApproverSpec
  award_amount : Int
deriving Repr, DecidableEq

/-- A sign-off token record returned to the caller of initiate. -/
structure SignoffTokenEntry where
  role : String
  token : String
  email : String
deriving Repr, DecidableEq

/-- `POST /applications/{application_id}/signoff/initiate` handler
(src/app/api/applications.py lines 430-495).  The token issuer
(`secrets.token_urlsafe(32)`) is modelled as a supply `issue : Nat → String`
giving the token minted by its i-th call.  The route's
`require_role("Grants Manager")` dependency has already admitted the actor;
`initiator` is `current_user.email`.  Note: the handler performs no check
for an already-existing `signoff_workflow` — the `$set` overwrites any
existing one. -/
def initiateApplicationSignoff (app : Application) (d : SignoffData)
    (issue : Nat → String) (initiator : String) (now : Nat) :
    Except Err (Application × List SignoffTokenEntry) :=
  if app.status ≠ "approved" then
    .error (.badRequest "Application must be approved to initiate sign-off")
  else
    let sign_off_tokens := d.approvers.enum.map (fun p =>
      { role := p.2.role, token := issue p.1, email := p.2.email })
    let approvals : List Approval := d.approvers.enum.map (fun p =>
      { role := p.2.role
        email := p.2.email
        name := p.2.name
        approverName := p.2.name
        token := issue p.1
        status := "pending"
        comments := none
        approver_name := none
        approved_at := none
        created_at := now })
    .ok ({ app with
            signoff_workflow := some
              { status := "pending"
                award_amount := d.award_amount
                approvals := approvals
                initiated_by := initiator
                initiated_at := now }
            updated_at := now },
         sign_off_tokens)

/-- Body of a `POST /signoff/{token}` request: `submission["decision"]`,
`submission.get("comments", "")`, `submission.get("approver_name", "")`. -/
structure DecideSubmission where
  decision : String
  comments : String
  approver_name : String
deriving Repr, DecidableEq

/-- MongoDB positional-`$` update on the `approvals` array: the first
element whose `token` matches the filter is overwritten with the
submission's fields. -/
def setApprovalByToken (token : String) (sub : DecideSubmission) (now : Nat) :
    List Approval → List Approval
  | [] => []
  | a :: rest =>
    if a.token = token then
      { a with
        status := sub.decision
        comments := some sub.comments
        approver_name := some sub.approver_name
        approved_at := some now } :: rest
    else
      a :: setApprovalByToken token sub now rest

/-- The aggregate recomputation of `submit_signoff_approval` (lines
573-582): `any_rejected → rejected`, else `all_approved → approved`,
else `pending`. -/
def computeAggregate (approvals : List Approval) : String :=
  if approvals.any (fun a => a.status == "rejected") then "rejected"
  else if approvals.all (fun a => a.status == "approved") then "approved"
  else "pending"

/-- `POST /signoff/{token}` handler (src/app/api/applications.py lines
534-592): resolves the application owning the token (404 when none),
overwrites the matched approval unconditionally — there is no
already-decided guard — then recomputes and stores the aggregate workflow
status. -/
def submitSignoffApproval (app : Application) (token : String)
    (sub : DecideSubmission) (now : Nat) : Except Err Application :=
  match app.signoff_workflow with
  | none => .error (.notFound "Invalid or expired sign-off token")
  | some wf =>
    if wf.approvals.all (fun a => a.token ≠ token) then
      .error (.notFound "Invalid or expired sign-off token")
    else
      let approvals1 := setApprovalByToken token sub now wf.approvals
      .ok { app with
        signoff_workflow := some
          { wf with approvals := approvals1, status := computeAggregate approvals1 }
        updated_at := now }

/-- `GET /applications/{application_id}/signoff/status` result. -/
structure SignoffStatusView where
  current_status : String
  completed_approvals : Nat
  total_approvals : Nat
deriving Repr, DecidableEq

/-- `GET /applications/{application_id}/signoff/status` handler (lines
594-617): a pure read. -/
def getSignoffStatus (app : Application) : SignoffStatusView :=
  let approvals := (app.signoff_workflow.map SignoffWorkflow.approvals).getD []
  { current_status :=
      (app.signoff_workflow.map SignoffWorkflow.status).getD "Not initiated"
    completed_approvals :=
      (approvals.filter (fun a => a.status ∈ ["approved", "rejected"])).length
    total_approvals := approvals.length }

/-- Per-application body of the repair script `sync_review_fields`
(src/sync_review_fields.py lines 31-44): applications with a non-empty
`reviewHistory` get `reviewComments` rewritten to the last entry's
comments (the write is skipped when already equal, which yields the same
state). -/
def sync_review_fields (app : Application) : Application :=
  match app.reviewHistory.getLast? with
  | some e =>
    if e.comments ≠ app.review_comments then
      { app with review_comments := e.comments }
    else app
  | none => app

/-! ### Concrete fixtures (used by witnesses and counterexamples) -/

/-- A plain application record, matching the seeded sample application's
shape. -/
def baseApp : Application :=
  { grant_id := "grant_001"
    applicant_name := "Dr. Sarah Johnson"
    email := "researcher@grants.edu"
    proposal_title := "AI-Powered Climate Change Prediction Models"
    status := "submitted"
    submission_date := 10
    review_comments := ""
    deadline := none
    final_decision := none
    is_editable := none
    revision_count := none
    original_submission_date := none
    reviewHistory := []
    signoff_workflow := none
    updated_at := 0 }

/-- A deterministic token supply standing in for `secrets.token_urlsafe`. -/
def tokenSupply (i : Nat) : String := "token-" ++ toString i

/-! ### Helper lemmas -/

/-- `computeAggregate` meets the three-way conditional of the spec. -/
theorem computeAggregate_spec (l : List Approval) :
    ((∃ a ∈ l, a.status = "rejected") → computeAggregate l = "rejected") ∧
    (¬ (∃ a ∈ l, a.status = "rejected") → (∀ a ∈ l, a.status = "approved") →
      computeAggregate l = "approved") ∧
    (¬ (∃ a ∈ l, a.status = "rejected") → ¬ (∀ a ∈ l, a.status = "approved") →
      computeAggregate l = "pending") := by
  unfold computeAggregate
  by_cases hrej : ∃ a ∈ l, a.status = "rejected"
  · have : l.any (fun a => a.status == "rejected") = true := by
      simp only [List.any_eq_true, beq_iff_eq]
      exact hrej
    simp [this, hrej]
  · have hany : l.any (fun a => a.status == "rejected") = false := by
      simp only [List.any_eq_false, beq_iff_eq]
      intro a ha
      exact fun h => hrej ⟨a, ha, h⟩
    by_cases hall : ∀ a ∈ l, a.status = "approved"
    · have : l.all (fun a => a.status == "approved") = true := by
        simp only [List.all_eq_true, beq_iff_eq]
        exact hall
      refine ⟨fun h => absurd h hrej, fun _ _ => by simp [hany, this], fun _ h => absurd hall h⟩
    · have : l.all (fun a => a.status == "approved") = false := by
        simp only [List.all_eq_false, beq_iff_eq]
        push_neg at hall
        obtain ⟨a, ha, h⟩ := hall
        exact ⟨a, ha, h⟩
      simp [hany, this, hrej, hall]

/-! ### C9: the review-comments repair is an idempotent projection rebuild -/

/-- C9: for every application with a non-empty review ledger, one run of the
repair sets `review_comments` to the comments of the last ledger entry, and
running the repair a second time changes nothing. -/
theorem C9_repair_is_idempotent_projection (app : Application)
    (h : app.reviewHistory ≠ []) :
    (sync_review_fields app).review_comments =
      (app.reviewHistory.getLast h).comments ∧
    sync_review_fields (sync_review_fields app) = sync_review_fields app := by
  have hl : app.reviewHistory.getLast? = some (app.reviewHistory.getLast h) :=
    List.getLast?_eq_getLast _ h
  by_cases hc : (app.reviewHistory.getLast h).comments = app.review_comments
  · constructor
    · simp [sync_review_fields, hl, hc]
    · simp [sync_review_fields, hl, hc]
  · constructor
    · simp [sync_review_fields, hl, hc]
    · simp [sync_review_fields, hl, hc]

/-- C9 witness: the repair on a concrete two-entry ledger. -/
theorem C9_repair_witness :
    (sync_review_fields { baseApp with
        reviewHistory :=
          [⟨"R1", "r1@x", "first", 1, "submitted"⟩,
           ⟨"R2", "r2@x", "fix budget", 2, "needs_revision"⟩] }).review_comments =
      (({ baseApp with
        reviewHistory :=
          [⟨"R1", "r1@x", "first", 1, "submitted"⟩,
           ⟨"R2", "r2@x", "fix budget", 2, "needs_revision"⟩] } :
            Application).reviewHistory.getLast (by decide)).comments ∧
    sync_review_fields (sync_review_fields { baseApp with
        reviewHistory :=
          [⟨"R1", "r1@x", "first", 1, "submitted"⟩,
           ⟨"R2", "r2@x", "fix budget", 2, "needs_revision"⟩] }) =
      sync_review_fields { baseApp with
        reviewHistory :=
          [⟨"R1", "r1@x", "first", 1, "submitted"⟩,
           ⟨"R2", "r2@x", "fix budget", 2, "needs_revision"⟩] } :=
  C9_repair_is_idempotent_projection _ (by decide)

/-! ### C10: the review-append endpoint performs no authorization -/

/-- C10: `POST /applications/{application_id}/review` has no role or
ownership check — it never fails with Forbidden for any actor — and when a
(non-empty) `new_status` is supplied it sets the status directly, leaving
`is_editable` and `review_comments` untouched. -/
theorem C10_review_append_bypasses_authz (actor : Actor) (app : Application)
    (rd : ReviewCreate) (ns : Option String) (now : Nat) :
    (∀ msg, addReviewComment actor app rd ns now ≠ .error (.forbidden msg)) ∧
    (∃ app', addReviewComment actor app rd ns now = .ok app') ∧
    (∀ app', addReviewComment actor app rd ns now = .ok app' →
      (∀ s, ns = some s → s ≠ "" → app'.status = s) ∧
      app'.is_editable = app.is_editable ∧
      app'.review_comments = app.review_comments ∧
      app'.reviewHistory = app.reviewHistory ++
        [{ reviewerName := rd.reviewer_name
           reviewerEmail := rd.reviewer_email
           comments := rd.comments
           submittedAt := now
           status := (optTruthy ns).getD app.status }]) := by
  rcases ns with _ | s
  · refine ⟨by simp [addReviewComment, optTruthy], ⟨_, rfl⟩, ?_⟩
    intro app' h
    simp [addReviewComment, optTruthy] at h
    subst h
    simp [optTruthy]
  · by_cases hs : s = ""
    · subst hs
      refine ⟨by simp [addReviewComment, optTruthy], ⟨_, rfl⟩, ?_⟩
      intro app' h
      simp [addReviewComment, optTruthy] at h
      subst h
      simp [optTruthy]
    · refine ⟨by simp [addReviewComment, optTruthy, hs],
        ⟨_, by unfold addReviewComment; simp only [optTruthy, if_neg hs]; rfl⟩, ?_⟩
      intro app' h
      simp [addReviewComment, optTruthy, hs] at h
      subst h
      simp [optTruthy, hs]

/-- C10 witness: a researcher who does not own the application appends a
review with `new_status=approved`; the call succeeds (is not Forbidden) and
the status is set directly. -/
theorem C10_review_append_witness :
    (∀ msg, addReviewComment ⟨"stranger@x", "Researcher"⟩ baseApp
        ⟨"S", "stranger@x", "lgtm"⟩ (some "approved") 3 ≠ .error (.forbidden msg)) ∧
    (∃ app', addReviewComment ⟨"stranger@x", "Researcher"⟩ baseApp
        ⟨"S", "stranger@x", "lgtm"⟩ (some "approved") 3 = .ok app') :=
  ⟨(C10_review_append_bypasses_authz ⟨"stranger@x", "Researcher"⟩ baseApp
      ⟨"S", "stranger@x", "lgtm"⟩ (some "approved") 3).1,
   (C10_review_append_bypasses_authz ⟨"stranger@x", "Researcher"⟩ baseApp
      ⟨"S", "stranger@x", "lgtm"⟩ (some "approved") 3).2.1⟩

/-! ### C7: sign-off operations never touch the top-level status -/

/-- C7: neither a successful `initiate` nor a successful `decide` changes
the application's top-level `status` (nor any field other than the embedded
`signoff_workflow` and the `updated_at` stamp). -/
theorem C7_signoff_ops_preserve_status (app : Application) (d : SignoffData)
    (issue : Nat → String) (initiator : String) (token : String)
    (sub : DecideSubmission) (now : Nat) :
    (∀ app' toks,
      initiateApplicationSignoff app d issue initiator now = .ok (app', toks) →
        app'.status = app.status ∧ app'.email = app.email ∧
        app'.submission_date = app.submission_date ∧
        app'.revision_count = app.revision_count ∧
        app'.original_submission_date = app.original_submission_date ∧
        app'.is_editable = app.is_editable ∧
        app'.review_comments = app.review_comments ∧
        app'.reviewHistory = app.reviewHistory ∧
        app'.deadline = app.deadline ∧
        app'.final_decision = app.final_decision) ∧
    (∀ app', submitSignoffApproval app token sub now = .ok app' →
        app'.status = app.status ∧ app'.email = app.email ∧
        app'.submission_date = app.submission_date ∧
        app'.revision_count = app.revision_count ∧
        app'.original_submission_date = app.original_submission_date ∧
        app'.is_editable = app.is_editable ∧
        app'.review_comments = app.review_comments ∧
        app'.reviewHistory = app.reviewHistory ∧
        app'.deadline = app.deadline ∧
        app'.final_decision = app.final_decision) := by
  constructor
  · intro app' toks h
    unfold initiateApplicationSignoff at h
    split at h
    · exact absurd h (by simp)
    · simp only [Except.ok.injEq, Prod.mk.injEq] at h
      obtain ⟨h1, _⟩ := h
      subst h1
      simp
  · intro app' h
    unfold submitSignoffApproval at h
    split at h
    · exact absurd h (by simp)
    · split at h
      · exact absurd h (by simp)
      · simp only [Except.ok.injEq] at h
        subst h
        simp

/-- C7 witness: a concrete decide on a two-approver workflow leaves the
top-level status at `approved`. -/
theorem C7_signoff_frame_witness :
    ∀ app', submitSignoffApproval { baseApp with
        status := "approved"
        signoff_workflow := some
          { status := "pending", award_amount := 500000
            approvals :=
              [⟨"DORI", "d@x", "D", "D", "t-1", "pending", none, none, none, 3⟩]
            initiated_by := "manager@grants.edu", initiated_at := 3 } }
      "t-1" ⟨"approved", "", "Dee"⟩ 7 = .ok app' →
      app'.status = "approved" :=
  fun app' h =>
    ((C7_signoff_ops_preserve_status { baseApp with
        status := "approved"
        signoff_workflow := some
          { status := "pending", award_amount := 500000
            approvals :=
              [⟨"DORI", "d@x", "D", "D", "t-1", "pending", none, none, none, 3⟩]
            initiated_by := "manager@grants.edu", initiated_at := 3 } }
      ⟨[], 0⟩ tokenSupply "manager@grants.edu" "t-1" ⟨"approved", "", "Dee"⟩ 7).2
      app' h).1

/-! ### C1: decide always recomputes the aggregate from all approvals -/

/-- C1: after every successful `decide`, the workflow's aggregate status is
`rejected` if at least one approval is `rejected`, otherwise `approved` if
every approval is `approved`, otherwise `pending` — for any prior state,
hence for any order of decisions across approvers. -/
theorem C1_decide_recomputes_aggregate (app : Application) (token : String)
    (sub : DecideSubmission) (now : Nat) (app' : Application)
    (wf' : SignoffWorkflow)
    (hok : submitSignoffApproval app token sub now = .ok app')
    (hwf : app'.signoff_workflow = some wf') :
    ((∃ a ∈ wf'.approvals, a.status = "rejected") → wf'.status = "rejected") ∧
    (¬ (∃ a ∈ wf'.approvals, a.status = "rejected") →
      (∀ a ∈ wf'.approvals, a.status = "approved") → wf'.status = "approved") ∧
    (¬ (∃ a ∈ wf'.approvals, a.status = "rejected") →
      ¬ (∀ a ∈ wf'.approvals, a.status = "approved") → wf'.status = "pending") := by
  unfold submitSignoffApproval at hok
  split at hok
  · exact absurd hok (by simp)
  · split at hok
    · exact absurd hok (by simp)
    · simp only [Except.ok.injEq] at hok
      subst hok
      simp only [Option.some.injEq] at hwf
      subst hwf
      exact computeAggregate_spec _

/-- Fixture for the C1 witness: a two-approver workflow with one decision
already recorded, before the second decide. -/
def c1AppPre : Application :=
  { baseApp with
    status := "approved"
    signoff_workflow := some
      { status := "pending"
        award_amount := 500000
        approvals :=
          [⟨"DORI", "d@x", "D", "D", "t-1", "pending", none, none, none, 3⟩,
           ⟨"DVC", "v@x", "V", "V", "t-2", "approved", some "ok", some "V", some 4, 3⟩]
        initiated_by := "manager@grants.edu"
        initiated_at := 3 } }

/-- Fixture for the C1 witness: the expected workflow after the second
approver decides `approved` at time 7. -/
def c1WfPost : SignoffWorkflow :=
  { status := "approved"
    award_amount := 500000
    approvals :=
      [⟨"DORI", "d@x", "D", "D", "t-1", "approved", some "", some "", some 7, 3⟩,
       ⟨"DVC", "v@x", "V", "V", "t-2", "approved", some "ok", some "V", some 4, 3⟩]
    initiated_by := "manager@grants.edu"
    initiated_at := 3 }

/-- Fixture for the C1 witness: the expected application state after the
second decide. -/
def c1AppPost : Application :=
  { c1AppPre with signoff_workflow := some c1WfPost, updated_at := 7 }

/-- C1 witness: with one approval already `approved` and the other decided
`approved` now, the recomputed aggregate is `approved`. -/
theorem C1_aggregate_witness :
    ¬ (∃ a ∈ c1WfPost.approvals, a.status = "rejected") ∧
    c1WfPost.status = "approved" :=
  have hmain := C1_decide_recomputes_aggregate c1AppPre "t-1" ⟨"approved", "", ""⟩ 7
    c1AppPost c1WfPost (by rfl) (by rfl)
  ⟨by decide, hmain.2.1 (by decide) (by decide)⟩

/-! ### C8: withdraw preconditions -/

/-- C8: withdraw succeeds only for the owner from {submitted, under_review};
from any other status it always fails; past a carried deadline it fails with
DeadlinePassed; before the deadline (preconditions met) it succeeds and sets
the status to `withdrawn`. -/
theorem C8_withdraw_preconditions (actor : Actor) (app : Application) (now : Nat) :
    (∀ app', withdrawApplication actor app now = .ok app' →
      app.email = actor.email ∧ app.status ∈ ["submitted", "under_review"]) ∧
    (app.status ∉ ["submitted", "under_review"] →
      ∀ app', withdrawApplication actor app now ≠ .ok app') ∧
    (app.email = actor.email → app.status ∈ ["submitted", "under_review"] →
      ∀ d, app.deadline = some d → now > d →
        withdrawApplication actor app now =
          .error (.badRequest "Cannot withdraw application after deadline")) ∧
    (app.email = actor.email → app.status ∈ ["submitted", "under_review"] →
      (app.deadline = none ∨ ∃ d, app.deadline = some d ∧ now ≤ d) →
        withdrawApplication actor app now =
          .ok { app with status := "withdrawn", updated_at := now }) := by
  refine ⟨?_, ?_, ?_, ?_⟩
  · intro app' h
    unfold withdrawApplication at h
    split at h
    · exact absurd h (by simp)
    · rename_i he
      split at h
      · exact absurd h (by simp)
      · rename_i hs
        exact ⟨not_not.mp he, not_not.mp hs⟩
  · intro hs app' h
    unfold withdrawApplication at h
    by_cases he : app.email ≠ actor.email
    · rw [if_pos he] at h; exact absurd h (by simp)
    · rw [if_neg he, if_pos hs] at h; exact absurd h (by simp)
  · intro he hs d hd hnow
    unfold withdrawApplication
    rw [if_neg (fun hn => hn he), if_neg (not_not_intro hs), hd]
    simp [hnow]
  · intro he hs hd
    unfold withdrawApplication
    rw [if_neg (fun hn => hn he), if_neg (not_not_intro hs)]
    rcases hd with hd | ⟨d, hd, hle⟩
    · rw [hd]
    · rw [hd]
      simp [not_lt.mpr hle]

/-- C8 witness: the owner withdraws a submitted application before its
deadline. -/
theorem C8_withdraw_witness :
    withdrawApplication ⟨"researcher@grants.edu", "Researcher"⟩
      { baseApp with deadline := some 100 } 50 =
      .ok { { baseApp with deadline := some 100 } with
        status := "withdrawn", updated_at := 50 } :=
  (C8_withdraw_preconditions ⟨"researcher@grants.edu", "Researcher"⟩
    { baseApp with deadline := some 100 } 50).2.2.2 rfl (by decide)
    (Or.inr ⟨100, rfl, by decide⟩)

/-! ### C3: researcher transition policy -/

/-- C3 counterexample: a researcher who owns an editable application and
requests status `editable` is rejected with Forbidden — contradicting the
claim that `editable` is one of the status values a researcher may
request. -/
theorem C3_counterexample_editable_forbidden :
    updateApplicationStatusV2 ⟨"researcher@grants.edu", "Researcher"⟩
      { baseApp with status := "editable" } ⟨some "editable", ""⟩ 5 =
      .error (.forbidden "Researchers can only resubmit applications") := by
  rfl

/-- C3 (amended): for a Researcher actor, a non-owned application yields
Forbidden for every requested status; the only requestable status value is
`submitted` (any other value — including `editable` — yields Forbidden);
and `submitted` succeeds only from
{editable, needs_revision, rejected, withdrawn}, otherwise failing with the
invalid-transition error. -/
theorem C3_researcher_transition_policy (actor : Actor) (app : Application)
    (req : StatusRequest) (now : Nat) (hrole : actor.role = "Researcher") :
    (app.email ≠ actor.email →
      updateApplicationStatusV2 actor app req now =
        .error (.forbidden "Access denied")) ∧
    (app.email = actor.email → req.status ≠ some "submitted" →
      updateApplicationStatusV2 actor app req now =
        .error (.forbidden "Researchers can only resubmit applications")) ∧
    (app.email = actor.email → req.status = some "submitted" →
      app.status ∉ ["editable", "needs_revision", "rejected", "withdrawn"] →
      updateApplicationStatusV2 actor app req now =
        .error (.badRequest "Application cannot be resubmitted in current status")) ∧
    (∀ app', updateApplicationStatusV2 actor app req now = .ok app' →
      app.email = actor.email ∧ req.status = some "submitted" ∧
      app.status ∈ ["editable", "needs_revision", "rejected", "withdrawn"]) := by
  refine ⟨?_, ?_, ?_, ?_⟩
  · intro hne
    unfold updateApplicationStatusV2
    rw [if_pos hrole, if_pos hne]
  · intro he hne
    unfold updateApplicationStatusV2
    rw [if_pos hrole, if_neg (fun hn => hn he), if_pos hne]
  · intro he hreq hs
    unfold updateApplicationStatusV2
    rw [if_pos hrole, if_neg (fun hn => hn he),
      if_neg (not_not_intro hreq), if_pos hs]
  · intro app' h
    unfold updateApplicationStatusV2 at h
    rw [if_pos hrole] at h
    split at h
    · exact absurd h (by simp)
    · rename_i he
      split at h
      · exact absurd h (by simp)
      · rename_i hreq
        split at h
        · exact absurd h (by simp)
        · rename_i hs
          exact ⟨not_not.mp he, not_not.mp hreq, not_not.mp hs⟩

/-- C3 witness: a researcher trying to update somebody else's application
gets Forbidden, for an arbitrary requested status value. -/
theorem C3_policy_witness :
    updateApplicationStatusV2 ⟨"other@grants.edu", "Researcher"⟩ baseApp
      ⟨some "approved", ""⟩ 5 = .error (.forbidden "Access denied") :=
  (C3_researcher_transition_policy ⟨"other@grants.edu", "Researcher"⟩ baseApp
    ⟨some "approved", ""⟩ 5 rfl).1 (by decide)

/-! ### C4: the duplicate status route dispatches to the first handler -/

/-- C4: `PUT /applications/{application_id}/status` is registered twice with
two different handlers; first-match dispatch makes the endpoint equivalent
to the first-registered handler alone, under which every actor outside
{Grants Manager, Admin} gets Forbidden and the second handler's resubmission
side effects (`revision_count`, `original_submission_date`,
`submission_date`) never execute. -/
theorem C4_status_route_shadowing :
    statusRouteRegistrations.length = 2 ∧
    effectiveStatusHandler = updateApplicationStatusV1 ∧
    updateApplicationStatusV1 ≠ updateApplicationStatusV2 ∧
    (∀ (actor : Actor) (app : Application) (req : StatusRequest) (now : Nat),
      actor.role ∉ ["Grants Manager", "Admin"] →
      effectiveStatusHandler actor app req now =
        .error (.forbidden "Only grants managers can update application status")) ∧
    (∀ (actor : Actor) (app : Application) (req : StatusRequest) (now : Nat)
        (app' : Application),
      effectiveStatusHandler actor app req now = .ok app' →
        app'.revision_count = app.revision_count ∧
        app'.original_submission_date = app.original_submission_date ∧
        app'.submission_date = app.submission_date) := by
  have hfirst : effectiveStatusHandler = updateApplicationStatusV1 := rfl
  refine ⟨rfl, hfirst, ?_, ?_, ?_⟩
  · intro hcontra
    have h1 := congrFun (congrFun (congrFun (congrFun hcontra
      ⟨"researcher@grants.edu", "Researcher"⟩) { baseApp with status := "editable" })
      ⟨some "submitted", ""⟩) 42
    have h2 := congrArg Except.isOk h1
    exact absurd h2 (by decide)
  · intro actor app req now h
    rw [hfirst]
    unfold updateApplicationStatusV1
    rw [if_pos h]
  · intro actor app req now app' h
    rw [hfirst] at h
    unfold updateApplicationStatusV1 at h
    split at h
    · exact absurd h (by simp)
    · split at h
      · exact absurd h (by simp)
      · split at h
        · exact absurd h (by simp)
        · simp only [Except.ok.injEq] at h
          subst h
          exact ⟨rfl, rfl, rfl⟩

/-- C4 witness: the dispatched endpoint rejects a researcher-owned
resubmission request with Forbidden (the second handler would have accepted
it). -/
theorem C4_shadowing_witness :
    effectiveStatusHandler ⟨"researcher@grants.edu", "Researcher"⟩
      { baseApp with status := "editable" } ⟨some "submitted", ""⟩ 42 =
      .error (.forbidden "Only grants managers can update application status") :=
  C4_status_route_shadowing.2.2.2.1 ⟨"researcher@grants.edu", "Researcher"⟩
    { baseApp with status := "editable" } ⟨some "submitted", ""⟩ 42 (by decide)

/-! ### C2: resubmission side effects -/

/-- Fixture for the C2 counterexample: an editable application with
`revision_count = 0`. -/
def c2App : Application :=
  { baseApp with
    status := "editable"
    revision_count := some 0
    is_editable := some true }

/-- Fixture for the C2 counterexample: what the dispatched endpoint
actually returns for a manager transition `editable → submitted`. -/
def c2Result : Application :=
  { c2App with status := "submitted", updated_at := 42, is_editable := some false }

/-- C2 counterexample: a successful `editable → submitted` transition
through the dispatched `PUT /applications/{application_id}/status` endpoint
leaves `revision_count` at 0 (not incremented) and `submission_date`
unchanged, because the route dispatches to the first-registered handler. -/
theorem C2_counterexample_no_increment :
    c2App.status = "editable" ∧
    effectiveStatusHandler ⟨"manager@grants.edu", "Grants Manager"⟩ c2App
      ⟨some "submitted", ""⟩ 42 = .ok c2Result ∧
    c2Result.status = "submitted" ∧
    c2Result.revision_count = some 0 ∧
    c2Result.revision_count ≠ some (c2App.revision_count.getD 0 + 1) ∧
    c2Result.submission_date = c2App.submission_date ∧
    c2Result.original_submission_date = c2App.original_submission_date :=
  ⟨rfl, rfl, rfl, rfl, by decide, rfl, rfl⟩

/-- One manager-driven revision round followed by a researcher resubmission,
both through the second-registered handler: the manager sets
`needs_revision` at time `t1`, the owner resubmits (`submitted`) at `t2`. -/
def resubmitCycle (owner mgr : Actor) (t1 t2 : Nat) (app : Application) :
    Except Err Application :=
  (updateApplicationStatusV2 mgr app ⟨some "needs_revision", ""⟩ t1).bind
    (fun a1 => updateApplicationStatusV2 owner a1 ⟨some "submitted", ""⟩ t2)

/-- `k` successive resubmission cycles. -/
def resubmitCycles (owner mgr : Actor) (t1 t2 : Nat) :
    Nat → Application → Except Err Application
  | 0, app => .ok app
  | k + 1, app =>
    (resubmitCycle owner mgr t1 t2 app).bind (resubmitCycles owner mgr t1 t2 k)

/-- The resubmission branch of the second handler's tail, evaluated. -/
theorem statusUpdateTail_resubmit (app : Application) (rc : String) (now : Nat)
    (h : app.status ∈ ["editable", "needs_revision"]) :
    statusUpdateTail app ⟨some "submitted", rc⟩ now = .ok
      { app with
        status := "submitted"
        review_comments := if rc ≠ "" then rc else app.review_comments
        is_editable := some false
        revision_count := some (app.revision_count.getD 0 + 1)
        original_submission_date :=
          some (app.original_submission_date.getD app.submission_date)
        submission_date := now
        updated_at := now } := by
  unfold statusUpdateTail
  simp [optTruthy, h]

/-- One resubmission cycle always succeeds for the owner and a manager, and
produces the expected record. -/
theorem resubmitCycle_ok (owner mgr : Actor) (t1 t2 : Nat) (app : Application)
    (hro : owner.role = "Researcher") (hrm : mgr.role = "Grants Manager")
    (he : app.email = owner.email) :
    resubmitCycle owner mgr t1 t2 app = .ok
      { app with
        status := "submitted"
        is_editable := some false
        revision_count := some (app.revision_count.getD 0 + 1)
        original_submission_date :=
          some (app.original_submission_date.getD app.submission_date)
        submission_date := t2
        updated_at := t2 } := by
  have hstep1 : updateApplicationStatusV2 mgr app ⟨some "needs_revision", ""⟩ t1 =
      .ok { app with
        status := "needs_revision"
        is_editable := some true
        updated_at := t1 } := by
    unfold updateApplicationStatusV2
    rw [if_neg (by rw [hrm]; decide), if_pos (by rw [hrm]; decide)]
    unfold statusUpdateTail
    simp [optTruthy]
  have hstep2 : updateApplicationStatusV2 owner
      { app with
        status := "needs_revision"
        is_editable := some true
        updated_at := t1 } ⟨some "submitted", ""⟩ t2 =
      .ok { app with
        status := "submitted"
        is_editable := some false
        revision_count := some (app.revision_count.getD 0 + 1)
        original_submission_date :=
          some (app.original_submission_date.getD app.submission_date)
        submission_date := t2
        updated_at := t2 } := by
    unfold updateApplicationStatusV2
    rw [if_pos hro, if_neg (fun hn => hn he), if_neg (by decide),
      if_neg (by simp)]
    rw [statusUpdateTail_resubmit _ _ _ (by simp)]
    rfl
  unfold resubmitCycle
  rw [hstep1]
  simpa [Except.bind] using hstep2

/-- `k` cycles succeed and add exactly `k` to the revision count while
preserving an already-set original submission date. -/
theorem resubmitCycles_ok (owner mgr : Actor) (t1 t2 : Nat)
    (hro : owner.role = "Researcher") (hrm : mgr.role = "Grants Manager") :
    ∀ (k : Nat) (app : Application), app.email = owner.email →
      ∃ app', resubmitCycles owner mgr t1 t2 k app = .ok app' ∧
        app'.email = app.email ∧
        app'.revision_count.getD 0 = app.revision_count.getD 0 + k ∧
        (∀ d, app.original_submission_date = some d →
          app'.original_submission_date = some d) := by
  intro k
  induction k with
  | zero =>
    intro app he
    exact ⟨app, rfl, rfl, by simp, fun d hd => hd⟩
  | succ k ih =>
    intro app he
    have hc := resubmitCycle_ok owner mgr t1 t2 app hro hrm he
    obtain ⟨app', h1, h2, h3, h4⟩ := ih
      { app with
        status := "submitted"
        is_editable := some false
        revision_count := some (app.revision_count.getD 0 + 1)
        original_submission_date :=
          some (app.original_submission_date.getD app.submission_date)
        submission_date := t2
        updated_at := t2 } he
    refine ⟨app', ?_, ?_, ?_, ?_⟩
    · unfold resubmitCycles
      rw [hc]
      simpa [Except.bind] using h1
    · exact h2
    · rw [h3]
      simp
      omega
    · intro d hd
      apply h4
      simp [hd]

/-- C2 (amended): the resubmission side effects live only in the
second-registered (shadowed) handler.  For that handler, a successful
transition to `submitted` from {editable, needs_revision} increments
`revision_count` by exactly 1, sets `original_submission_date` to the prior
`submission_date` only when unset (never changing it once set), sets
`submission_date` to now and `is_editable` to false; and `k` successful
resubmission cycles through it add exactly `k` to `revision_count`.  The
dispatched endpoint itself (first handler) never performs these effects
(see the counterexample and C4). -/
theorem C2_resubmission_effects_shadowed_handler :
    (∀ (actor : Actor) (app : Application) (req : StatusRequest) (now : Nat)
        (app' : Application),
      app.status ∈ ["editable", "needs_revision"] →
      req.status = some "submitted" →
      updateApplicationStatusV2 actor app req now = .ok app' →
        app'.revision_count = some (app.revision_count.getD 0 + 1) ∧
        app'.original_submission_date =
          some (app.original_submission_date.getD app.submission_date) ∧
        (∀ d, app.original_submission_date = some d →
          app'.original_submission_date = some d) ∧
        app'.submission_date = now ∧
        app'.is_editable = some false) ∧
    (∀ (owner mgr : Actor) (t1 t2 k : Nat) (app : Application),
      owner.role = "Researcher" → mgr.role = "Grants Manager" →
      app.email = owner.email →
      ∃ app', resubmitCycles owner mgr t1 t2 k app = .ok app' ∧
        app'.revision_count.getD 0 = app.revision_count.getD 0 + k ∧
        (∀ d, app.original_submission_date = some d →
          app'.original_submission_date = some d)) := by
  constructor
  · intro actor app req now app' hstat hreq hok
    obtain ⟨rs, rc⟩ := req
    simp only at hreq
    subst hreq
    have htail := statusUpdateTail_resubmit app rc now hstat
    unfold updateApplicationStatusV2 at hok
    split at hok
    · split at hok
      · exact absurd hok (by simp)
      · split at hok
        · exact absurd hok (by simp)
        · split at hok
          · exact absurd hok (by simp)
          · rw [htail] at hok
            simp only [Except.ok.injEq] at hok
            subst hok
            exact ⟨rfl, rfl, fun d hd => by simp [hd], rfl, rfl⟩
    · split at hok
      · rw [htail] at hok
        simp only [Except.ok.injEq] at hok
        subst hok
        exact ⟨rfl, rfl, fun d hd => by simp [hd], rfl, rfl⟩
      · exact absurd hok (by simp)
  · intro owner mgr t1 t2 k app hro hrm he
    obtain ⟨app', h1, _, h3, h4⟩ := resubmitCycles_ok owner mgr t1 t2 hro hrm k app he
    exact ⟨app', h1, h3, h4⟩

/-- C2 witness: two concrete cycles on a fresh application take the
revision count from unset (0) to 2. -/
theorem C2_cycles_witness :
    ∃ app', resubmitCycles ⟨"researcher@grants.edu", "Researcher"⟩
        ⟨"manager@grants.edu", "Grants Manager"⟩ 20 21 2 baseApp = .ok app' ∧
      app'.revision_count.getD 0 = baseApp.revision_count.getD 0 + 2 ∧
      (∀ d, baseApp.original_submission_date = some d →
        app'.original_submission_date = some d) :=
  C2_resubmission_effects_shadowed_handler.2
    ⟨"researcher@grants.edu", "Researcher"⟩
    ⟨"manager@grants.edu", "Grants Manager"⟩ 20 21 2 baseApp rfl rfl rfl

/-! ### C5: decide on an already-decided approval -/

/-- The positional update rewrites exactly the first token match. -/
theorem setApprovalByToken_append (token : String) (sub : DecideSubmission)
    (now : Nat) (pre : List Approval) (a : Approval) (post : List Approval)
    (hpre : ∀ b ∈ pre, b.token ≠ token) (ha : a.token = token) :
    setApprovalByToken token sub now (pre ++ a :: post) =
      pre ++ ({ a with
        status := sub.decision
        comments := some sub.comments
        approver_name := some sub.approver_name
        approved_at := some now } :: post) := by
  induction pre with
  | nil => simp [setApprovalByToken, ha]
  | cons b pre ih =>
    have hb : b.token ≠ token := hpre b (by simp)
    simp only [List.cons_append, setApprovalByToken, if_neg hb]
    exact congrArg (List.cons b) (ih (fun x hx => hpre x (by simp [hx])))

/-- Fixture for the C5 counterexample: a single-approver workflow whose
approval is already decided `approved`. -/
def c5Wf : SignoffWorkflow :=
  { status := "approved"
    award_amount := 100
    approvals :=
      [⟨"DORI", "d@x", "Dee", "Dee", "t-1", "approved", some "ok", some "Dee", some 5, 3⟩]
    initiated_by := "manager@grants.edu"
    initiated_at := 3 }

/-- Fixture for the C5 counterexample: the application carrying `c5Wf`. -/
def c5App : Application :=
  { baseApp with status := "approved", signoff_workflow := some c5Wf }

/-- Fixture for the C5 counterexample: the state after re-deciding the same
token with the opposite decision. -/
def c5PostApp : Application :=
  { c5App with
    signoff_workflow := some
      { c5Wf with
        approvals :=
          [⟨"DORI", "d@x", "Dee", "Dee", "t-1", "rejected",
            some "changed my mind", some "Eve", some 9, 3⟩]
        status := "rejected" }
    updated_at := 9 }

/-- C5 counterexample: a repeated decide on an already-decided approval
neither fails nor leaves the approval unchanged — it succeeds and silently
overwrites status, comments, approver name and decision timestamp. -/
theorem C5_counterexample_silent_overwrite :
    ((c5App.signoff_workflow.map SignoffWorkflow.approvals).getD []).map
        Approval.status = ["approved"] ∧
    submitSignoffApproval c5App "t-1"
      ⟨"rejected", "changed my mind", "Eve"⟩ 9 = .ok c5PostApp ∧
    ((c5PostApp.signoff_workflow.map SignoffWorkflow.approvals).getD []).map
        Approval.status = ["rejected"] :=
  ⟨rfl, rfl, rfl⟩

/-- C5 (amended): `submit_signoff_approval` has no already-decided guard:
deciding a token whose approval already has a non-pending status succeeds
and overwrites the approval's status, comments, approver name and decision
timestamp with the new submission's values. -/
theorem C5_decide_overwrites_decided_approval (app : Application)
    (wf : SignoffWorkflow) (pre : List Approval) (a : Approval)
    (post : List Approval) (token : String) (sub : DecideSubmission) (now : Nat)
    (hwf : app.signoff_workflow = some wf)
    (happ : wf.approvals = pre ++ a :: post)
    (hpre : ∀ b ∈ pre, b.token ≠ token)
    (ha : a.token = token)
    (_hdecided : a.status ≠ "pending") :
    ∃ app' wf', submitSignoffApproval app token sub now = .ok app' ∧
      app'.signoff_workflow = some wf' ∧
      wf'.approvals = pre ++ ({ a with
        status := sub.decision
        comments := some sub.comments
        approver_name := some sub.approver_name
        approved_at := some now } :: post) := by
  have hmem : a ∈ wf.approvals := by rw [happ]; simp
  have hguard : ¬ (wf.approvals.all (fun x => x.token ≠ token) = true) := by
    intro hall
    rw [List.all_eq_true] at hall
    exact absurd ha (of_decide_eq_true (hall a hmem))
  unfold submitSignoffApproval
  simp only [hwf]
  rw [if_neg hguard]
  refine ⟨_, _, rfl, rfl, ?_⟩
  show setApprovalByToken token sub now wf.approvals = _
  rw [happ, setApprovalByToken_append token sub now pre a post hpre ha]

/-- C5 witness: the amended overwrite behaviour on the concrete
already-decided fixture. -/
theorem C5_overwrite_witness :
    ∃ app' wf', submitSignoffApproval c5App "t-1"
        ⟨"rejected", "changed my mind", "Eve"⟩ 9 = .ok app' ∧
      app'.signoff_workflow = some wf' ∧
      wf'.approvals = [] ++ ({ (⟨"DORI", "d@x", "Dee", "Dee", "t-1", "approved",
          some "ok", some "Dee", some 5, 3⟩ : Approval) with
        status := "rejected"
        comments := some "changed my mind"
        approver_name := some "Eve"
        approved_at := some 9 } :: []) :=
  C5_decide_overwrites_decided_approval c5App c5Wf []
    ⟨"DORI", "d@x", "Dee", "Dee", "t-1", "approved", some "ok", some "Dee", some 5, 3⟩
    [] "t-1" ⟨"rejected", "changed my mind", "Eve"⟩ 9 rfl rfl
    (by simp) rfl (by decide)

/-! ### C6: initiate -/

/-- Fixture for C6: a pending (non-terminal) workflow already embedded in
the application. -/
def c6ExistingWf : SignoffWorkflow :=
  { status := "pending"
    award_amount := 100
    approvals :=
      [⟨"DORI", "d@x", "Dee", "Dee", "old-t", "pending", none, none, none, 2⟩]
    initiated_by := "manager@grants.edu"
    initiated_at := 2 }

/-- Fixture for C6: an approved application that already carries a pending
sign-off workflow. -/
def c6App : Application :=
  { baseApp with status := "approved", signoff_workflow := some c6ExistingWf }

/-- Fixture for C6: the initiation request body. -/
def c6Data : SignoffData :=
  { approvers := [⟨"DORI", "d@x", "Dee"⟩, ⟨"DVC", "v@x", "Vee"⟩]
    award_amount := 500000 }

/-- C6 counterexample: `initiate` on an application that already carries a
pending (non-terminal) sign-off workflow succeeds and replaces the
workflow — the handler has no at-most-once guard. -/
theorem C6_counterexample_reinitiation_allowed :
    c6App.signoff_workflow = some c6ExistingWf ∧
    c6ExistingWf.status = "pending" ∧
    ∃ res, initiateApplicationSignoff c6App c6Data tokenSupply
        "manager@grants.edu" 20 = .ok res ∧
      res.1.signoff_workflow ≠ some c6ExistingWf := by
  refine ⟨rfl, rfl, ⟨_, rfl, ?_⟩⟩
  decide

/-- C6 (amended): `initiate` fails with the invalid-state error exactly when
the application is not `approved`; on success it creates one pending
approval per approver, with the i-th freshly issued token, copies the
award amount and stores the workflow with aggregate status `pending`; but
it performs no at-most-once check — it succeeds (overwriting) even when a
pending workflow already exists. -/
theorem C6_initiate_behaviour (app : Application) (d : SignoffData)
    (issue : Nat → String) (initiator : String) (now : Nat) :
    (app.status ≠ "approved" →
      initiateApplicationSignoff app d issue initiator now =
        .error (.badRequest "Application must be approved to initiate sign-off")) ∧
    (app.status = "approved" →
      ∀ wf0, app.signoff_workflow = some wf0 → wf0.status = "pending" →
      ∃ app' toks,
        initiateApplicationSignoff app d issue initiator now = .ok (app', toks)) ∧
    (∀ app' toks,
      initiateApplicationSignoff app d issue initiator now = .ok (app', toks) →
      ∃ wf, app'.signoff_workflow = some wf ∧
        wf.status = "pending" ∧
        wf.award_amount = d.award_amount ∧
        wf.initiated_by = initiator ∧
        wf.approvals.length = d.approvers.length ∧
        toks.length = d.approvers.length ∧
        (∀ a ∈ wf.approvals, a.status = "pending") ∧
        wf.approvals.map Approval.token =
          (List.range d.approvers.length).map issue ∧
        wf.approvals.map Approval.role = d.approvers.map ApproverSpec.role ∧
        wf.approvals.map Approval.email = d.approvers.map ApproverSpec.email) := by
  refine ⟨?_, ?_, ?_⟩
  · intro h
    unfold initiateApplicationSignoff
    rw [if_pos h]
  · intro h wf0 _ _
    unfold initiateApplicationSignoff
    rw [if_neg (not_not_intro h)]
    exact ⟨_, _, rfl⟩
  · intro app' toks h
    unfold initiateApplicationSignoff at h
    split at h
    · exact absurd h (by simp)
    · simp only [Except.ok.injEq, Prod.mk.injEq] at h
      obtain ⟨h1, h2⟩ := h
      subst h1
      subst h2
      refine ⟨_, rfl, rfl, rfl, rfl, ?_, ?_, ?_, ?_, ?_, ?_⟩
      · simp [List.enum_length]
      · simp [List.enum_length]
      · intro a ha
        obtain ⟨p, _, rfl⟩ := List.mem_map.mp ha
        rfl
      · rw [List.map_map]
        conv_rhs => rw [← List.enum_map_fst d.approvers]
        rw [List.map_map]
        rfl
      · rw [List.map_map]
        conv_rhs => rw [← List.enum_map_snd d.approvers]
        rw [List.map_map]
        rfl
      · rw [List.map_map]
        conv_rhs => rw [← List.enum_map_snd d.approvers]
        rw [List.map_map]
        rfl

/-- C6 witness: the amended behaviour on the concrete fixture — initiation
succeeds on the approved application even though a pending workflow
exists. -/
theorem C6_initiate_witness :
    ∃ app' toks, initiateApplicationSignoff c6App c6Data tokenSupply
        "manager@grants.edu" 20 = .ok (app', toks) :=
  (C6_initiate_behaviour c6App c6Data tokenSupply "manager@grants.edu" 20).2.1
    rfl c6ExistingWf rfl rfl

end GMS
